import Mathlib

/-!
Verification of the backlog-modify generation orchestrator of automaker-ralph.

The development shallowly embeds the modules
`apps/server/src/routes/backlog-modify/common.ts` (module-level running
state), `routes/generate.ts` (the POST /generate admission handler),
`routes/stop.ts` (the POST /stop handler) and `generate-modify.ts`
(the background generation task `generateBacklogModify` together with
`parseModifyResponse`), and proves the single-flight, event-emission,
accumulation, cleanup and read-only properties claimed of them.

Abort controllers are identified by natural numbers; the provider's lazy
message stream is modelled as the list of messages it delivers followed by
an optional thrown error, and the cooperative abort signal as the index
from which `signal.aborted` is observed true.
-/

namespace Automaker

/-- One entry of `BacklogPlanResult.changes`; the shape is taken from its
uses in `parseModifyResponse` and `apply.ts` (`change.type`,
`change.featureId`, `change.feature`). -/
structure BacklogChange where
  type : String
  featureId : Option String
  feature : Option String
  deriving DecidableEq

/-- The artifact produced by `parseModifyResponse` (fields as written
literally in `generate-modify.ts` lines 100-104). `dependencyUpdates`
entries are opaque to this module, so they are modelled as strings. -/
structure BacklogPlanResult where
  changes : List BacklogChange
  summary : String
  dependencyUpdates : List String
  deriving DecidableEq

/-- The module-level mutable state of `common.ts`:
`let isRunning = false; let currentAbortController = null`.
Abort controllers are identified by a natural number. -/
structure ScopeState where
  isRunning : Bool
  currentAbortController : Option Nat
  deriving DecidableEq

/-- `common.ts` `getBacklogModifyStatus`: returns `{ isRunning }`. -/
def getBacklogModifyStatus (s : ScopeState) : Bool :=
  s.isRunning

/-- `common.ts` `setRunningState(running, abortController?)`.
The second argument is optional in TypeScript: `none` models an omitted
(`undefined`) argument, which leaves `currentAbortController` untouched;
`some c` models a passed argument (`some none` is `null`). -/
def setRunningState (s : ScopeState) (running : Bool)
    (abortController : Option (Option Nat)) : ScopeState :=
  { isRunning := running
    currentAbortController :=
      match abortController with
      | none => s.currentAbortController
      | some c => c }

/-- `common.ts` `getAbortController`: returns `currentAbortController`. -/
def getAbortController (s : ScopeState) : Option Nat :=
  s.currentAbortController

/-- A content block of an assistant message
(`block.type === 'text'` carries `block.text`; anything else is ignored
by the consumption loop). -/
inductive ContentBlock where
  | text (text : String)
  | toolUse
  deriving DecidableEq

/-- A provider stream message as consumed by `generateBacklogModify`:
`assistant` with an optional content list (`msg.message?.content`),
a terminal `result` with `subtype` and optional `result` string, or any
other message type, which the loop ignores. -/
inductive ProviderMessage where
  | assistant (content : Option (List ContentBlock))
  | result (subtype : String) (result : Option String)
  | system
  deriving DecidableEq

/-- Concatenation of the `text` blocks of one assistant message, in order
(the inner `for (const block of msg.message.content)` loop). -/
def assistantText (blocks : List ContentBlock) : String :=
  blocks.foldl
    (fun a b =>
      match b with
      | ContentBlock.text t => a ++ t
      | ContentBlock.toolUse => a) ""

/-- One iteration of the `for await (const msg of stream)` body on the
accumulated `responseText`: assistant text blocks are appended; a
`result` message with `subtype === 'success'` and a truthy (non-empty)
`result` string replaces the accumulator when strictly longer. -/
def stepMsg (acc : String) : ProviderMessage → String
  | ProviderMessage.assistant none => acc
  | ProviderMessage.assistant (some blocks) => acc ++ assistantText blocks
  | ProviderMessage.result subtype res =>
    if subtype = "success" then
      match res with
      | some r => if r ≠ "" ∧ r.length > acc.length then r else acc
      | none => acc
    else acc
  | ProviderMessage.system => acc

/-- Whether `abortController.signal.aborted` is observed true at loop
iteration `i`, when the signal becomes aborted from index `abortedFrom`
on (abort is one-way, hence monotone). -/
def isAbortedAt (abortedFrom : Option Nat) (i : Nat) : Bool :=
  match abortedFrom with
  | none => false
  | some k => Nat.ble k i

/-- The consumption loop of `generateBacklogModify` (lines 209-233):
at each delivered message it first checks the abort signal and throws
`Error('Generation aborted')` if set, otherwise processes the message
with `stepMsg`. Returns the final `responseText`, or the thrown error. -/
def consumeStream (abortedFrom : Option Nat) :
    Nat → String → List ProviderMessage → Except String String
  | _, acc, [] => Except.ok acc
  | i, acc, m :: rest =>
    if isAbortedAt abortedFrom i then Except.error "Generation aborted"
    else consumeStream abortedFrom (i + 1) (stepMsg acc m) rest

/-- The degenerate artifact returned by `parseModifyResponse` when
extraction fails (lines 100-104). -/
def degenerateResult : BacklogPlanResult :=
  { changes := []
    summary := "Failed to parse AI response"
    dependencyUpdates := [] }

/-- `parseModifyResponse`. The shared utility `extractJsonWithArray` is
not part of the sources under verification; per the spec it is the
caller-supplied response-text parser, so it is passed in as an abstract
function `extract`. On success the changes are filtered to `type ===
'update'` and `dependencyUpdates` is forced empty; on failure the
degenerate artifact is returned. -/
def parseModifyResponse (extract : String → Option BacklogPlanResult)
    (response : String) : BacklogPlanResult :=
  match extract response with
  | some parsed =>
    { parsed with
      changes := parsed.changes.filter (fun c => c.type == "update")
      dependencyUpdates := [] }
  | none => degenerateResult

/-- The options record passed to `provider.executeQuery` (the fields of
the call at lines 194-205 that the claims are about). -/
structure ExecuteOptions where
  prompt : String
  model : String
  cwd : String
  systemPrompt : Option String
  maxTurns : Nat
  allowedTools : List String
  readOnly : Bool
  deriving DecidableEq

/-- The literal block of extra instructions spliced into the prompt for
Cursor models (lines 179-189). -/
def cursorCriticalInstructions : String :=
  "CRITICAL INSTRUCTIONS:\n1. DO NOT write any files. Return the JSON in your response only.\n2. DO NOT use Write, Edit, or any file modification tools.\n3. Respond with ONLY a JSON object - no explanations, no markdown, just raw JSON.\n4. Your entire response should be valid JSON starting with \x7b and ending with \x7d.\n5. No text before or after the JSON object.\n6. ONLY include \"update\" type changes - no \"add\" or \"delete\"."

/-- Construction of the `executeQuery` options (lines 170-205): for a
Cursor model the system prompt is folded into the user prompt and the
separate system prompt dropped; in both branches `maxTurns` is 1,
`allowedTools` is the empty list and `readOnly` is true. -/
def buildExecuteOptions (isCursor : Bool)
    (effectiveModel systemPrompt userPrompt projectPath : String) :
    ExecuteOptions :=
  if isCursor then
    { prompt := systemPrompt ++ "\n\n" ++ cursorCriticalInstructions ++ "\n\n" ++ userPrompt
      model := effectiveModel
      cwd := projectPath
      systemPrompt := none
      maxTurns := 1
      allowedTools := []
      readOnly := true }
  else
    { prompt := userPrompt
      model := effectiveModel
      cwd := projectPath
      systemPrompt := some systemPrompt
      maxTurns := 1
      allowedTools := []
      readOnly := true }

/-- An event published on the `backlog-modify:event` bus channel, one of
the payload types `backlog_modify_progress`, `backlog_modify_complete`,
`backlog_modify_error`. -/
inductive BusEvent where
  | progress (content : String)
  | complete (result : BacklogPlanResult)
  | error (error : String)
  deriving DecidableEq

/-- The payload `type` string of a bus event. -/
def eventKind : BusEvent → String
  | BusEvent.progress _ => "backlog_modify_progress"
  | BusEvent.complete _ => "backlog_modify_complete"
  | BusEvent.error _ => "backlog_modify_error"

/-- Terminal events are `complete` and `error`. -/
def isTerminal : BusEvent → Bool
  | BusEvent.progress _ => false
  | BusEvent.complete _ => true
  | BusEvent.error _ => true

def isProgressEvent : BusEvent → Bool
  | BusEvent.progress _ => true
  | BusEvent.complete _ => false
  | BusEvent.error _ => false

def isCompleteEvent : BusEvent → Bool
  | BusEvent.progress _ => false
  | BusEvent.complete _ => true
  | BusEvent.error _ => false

def isErrorEvent : BusEvent → Bool
  | BusEvent.progress _ => false
  | BusEvent.complete _ => false
  | BusEvent.error _ => true

def completeCount (evs : List BusEvent) : Nat :=
  evs.countP (fun e => isCompleteEvent e)

def errorCount (evs : List BusEvent) : Nat :=
  evs.countP (fun e => isErrorEvent e)

/-- The slice of a `Feature` that `generateBacklogModify` inspects
(`f.status`, optional in TypeScript). -/
structure Feature where
  status : Option String
  deriving DecidableEq

/-- The environment of one `generateBacklogModify` run: the loaded
features, the provider stream (messages delivered, then an optional
thrown error), the index from which the abort signal reads true, the
injected response parser, and the already-resolved prompt/model inputs
of the `executeQuery` call. -/
structure GenInput where
  features : List Feature
  msgs : List ProviderMessage
  streamErr : Option String
  abortedFrom : Option Nat
  extract : String → Option BacklogPlanResult
  isCursor : Bool
  effectiveModel : String
  systemPrompt : String
  userPrompt : String
  projectPath : String

/-- The two progress events emitted before the stream is consumed
(lines 126-129 and 143-146). -/
def preEvents (inp : GenInput) : List BusEvent :=
  let eligible := inp.features.filter
    (fun f => f.status == some "backlog" || f.status == some "in_progress")
  [BusEvent.progress
    ("Loaded " ++ toString eligible.length
      ++ " features (backlog/in_progress) from "
      ++ toString inp.features.length ++ " total"),
   BusEvent.progress "Generating modifications with AI..."]

/-- Consuming the stream and reacting to its outcome: a throw (abort or
stream error) reaches the catch block, which emits one
`backlog_modify_error` event and rethrows; a normally ended stream is
parsed and one `backlog_modify_complete` event is emitted. Returns the
events emitted after the pre-events, paired with the
return/throw outcome of the function body. -/
def runTail (inp : GenInput) :
    List BusEvent × Except String BacklogPlanResult :=
  match consumeStream inp.abortedFrom 0 "" inp.msgs with
  | Except.error e => ([BusEvent.error e], Except.error e)
  | Except.ok acc =>
    match inp.streamErr with
    | some e => ([BusEvent.error e], Except.error e)
    | none =>
      ([BusEvent.complete (parseModifyResponse inp.extract acc)],
        Except.ok (parseModifyResponse inp.extract acc))

/-- The observable outcome of one `generateBacklogModify` run: every bus
event it emitted in order, its return value or thrown error, the scope
state after its `finally` block, and the options it passed to
`provider.executeQuery`. -/
structure GenOutcome where
  events : List BusEvent
  outcome : Except String BacklogPlanResult
  state : ScopeState
  queryOptions : ExecuteOptions

/-- `generateBacklogModify` (generate-modify.ts): emits the two progress
events, issues the query, consumes the stream, parses and emits the
terminal event (or emits an error event and rethrows), and in its
`finally` always calls `setRunningState(false, null)`. -/
def generateBacklogModify (inp : GenInput) (st : ScopeState) : GenOutcome :=
  { events := preEvents inp ++ (runTail inp).1
    outcome := (runTail inp).2
    state := setRunningState st false (some none)
    queryOptions := buildExecuteOptions inp.isCursor inp.effectiveModel
      inp.systemPrompt inp.userPrompt inp.projectPath }

/-- The request body of POST /generate (`model` is irrelevant to the
claims; absent strings are modelled as the empty string, matching the
falsiness checks `if (!projectPath)` / `if (!prompt)`). -/
structure GenerateRequest where
  projectPath : String
  prompt : String
  deriving DecidableEq

/-- The HTTP response of the generate handler. -/
inductive HttpResponse where
  | badRequest (error : String)
  | okFailure (error : String)
  | okSuccess
  deriving DecidableEq

/-- The observable outcome of one call to the POST /generate handler:
the HTTP response, the scope state at the moment the response is sent,
whether a background generation task was launched, the bus events the
background task (with its attached catch) emitted, and the scope state
after the background task and its `finally` ran. -/
structure HandlerResult where
  resp : HttpResponse
  stateAfterAdmission : ScopeState
  launched : Bool
  bgEvents : List BusEvent
  finalState : ScopeState

/-- The events emitted by the `.catch` attached to the background task
in `createGenerateHandler`: on a rethrown error it emits one more
`backlog_modify_error` event (with `getErrorMessage(error)`); on normal
resolution it emits nothing. -/
def catchEvents : Except String BacklogPlanResult → List BusEvent
  | Except.error e => [BusEvent.error e]
  | Except.ok _ => []

/-- `createGenerateHandler` (generate.ts): validates the body, rejects
with `success:false` when `isRunning` is already true, otherwise calls
`setRunningState(true)` then `setRunningState(true, abortController)`
and launches `generateBacklogModify` in the background with a `.catch`
that emits one more `backlog_modify_error` on a rethrown error and a
`.finally` that calls `setRunningState(false, null)` again.
`c` is the identity of the freshly constructed abort controller. -/
def createGenerateHandler (inp : GenInput) (req : GenerateRequest)
    (st : ScopeState) (c : Nat) : HandlerResult :=
  if req.projectPath = "" then
    { resp := HttpResponse.badRequest "projectPath required"
      stateAfterAdmission := st
      launched := false
      bgEvents := []
      finalState := st }
  else if req.prompt = "" then
    { resp := HttpResponse.badRequest "prompt required"
      stateAfterAdmission := st
      launched := false
      bgEvents := []
      finalState := st }
  else if getBacklogModifyStatus st then
    { resp := HttpResponse.okFailure "Backlog modify generation is already running"
      stateAfterAdmission := st
      launched := false
      bgEvents := []
      finalState := st }
  else
    let st2 := setRunningState (setRunningState st true none) true (some (some c))
    let g := generateBacklogModify inp st2
    { resp := HttpResponse.okSuccess
      stateAfterAdmission := st2
      launched := true
      bgEvents := g.events ++ catchEvents g.outcome
      finalState := setRunningState g.state false (some none) }

/-- The observable outcome of one call to the POST /stop handler: the
response (always `success: true` with a message), the state afterwards,
which controller (if any) was signaled, and the bus events it emitted
(none: the stop handler never publishes). -/
structure StopResult where
  respSuccess : Bool
  message : String
  state : ScopeState
  signaled : Option Nat
  events : List BusEvent
  deriving DecidableEq

/-- `createStopHandler` (stop.ts): if a controller is stored, abort it
and call `setRunningState(false, null)`; either way respond
`success: true`. -/
def createStopHandler (st : ScopeState) : StopResult :=
  match getAbortController st with
  | some c =>
    { respSuccess := true
      message := "Generation stopped"
      state := setRunningState st false (some none)
      signaled := some c
      events := [] }
  | none =>
    { respSuccess := true
      message := "No generation running"
      state := st
      signaled := none
      events := [] }

/-- The assistant text contributed by one message (empty for anything
that is not an assistant message with content). -/
def msgText : ProviderMessage → String
  | ProviderMessage.assistant (some blocks) => assistantText blocks
  | ProviderMessage.assistant none => ""
  | ProviderMessage.result _ _ => ""
  | ProviderMessage.system => ""

/-- Spec-level concatenation of the assistant text of a message list,
in delivered order. -/
def assistantConcat : List ProviderMessage → String
  | [] => ""
  | m :: rest => msgText m ++ assistantConcat rest

/-- Whether a message is a terminal `result` message. -/
def isResultMsg : ProviderMessage → Bool
  | ProviderMessage.result _ _ => true
  | _ => false

/-- Whether a `complete` bus event's payload satisfies the modify-only
artifact invariant: every change has type `update` and
`dependencyUpdates` is empty (other events satisfy it vacuously). -/
def completePayloadOk : BusEvent → Bool
  | BusEvent.complete res =>
    res.changes.all (fun ch => ch.type == "update") && res.dependencyUpdates.isEmpty
  | BusEvent.progress _ => true
  | BusEvent.error _ => true

/-- Shared concrete inputs used to instantiate the general theorems. -/
def wExtract : String → Option BacklogPlanResult := fun _ => none

def wInp : GenInput :=
  { features := []
    msgs := []
    streamErr := none
    abortedFrom := none
    extract := wExtract
    isCursor := false
    effectiveModel := "claude-sonnet"
    systemPrompt := "sys"
    userPrompt := "user"
    projectPath := "/p" }

def wReq : GenerateRequest := { projectPath := "/p", prompt := "do it" }

/-- A run whose provider stream throws after delivering no messages. -/
def errInp : GenInput := { wInp with streamErr := some "boom" }

/-- A run whose provider delivers one assistant message with text block
"a" and then ends. -/
def oneMsgInp : GenInput :=
  { wInp with msgs := [ProviderMessage.assistant (some [ContentBlock.text "a"])] }

/-- A run whose abort signal is set from the start and whose provider
delivers at least one message. -/
def abortInp : GenInput :=
  { wInp with msgs := [ProviderMessage.system], abortedFrom := some 0 }

/-! ### Helper lemmas -/

lemma consumeStream_none_eq_foldl (msgs : List ProviderMessage)
    (i : Nat) (acc : String) :
    consumeStream none i acc msgs = Except.ok (msgs.foldl stepMsg acc) := by
  induction msgs generalizing i acc with
  | nil => rfl
  | cons m rest ih => simp [consumeStream, isAbortedAt, ih]

lemma foldl_stepMsg_no_result (msgs : List ProviderMessage)
    (h : ∀ m ∈ msgs, isResultMsg m = false) :
    ∀ acc : String, msgs.foldl stepMsg acc = acc ++ assistantConcat msgs := by
  induction msgs with
  | nil => intro acc; simp [assistantConcat]
  | cons m rest ih =>
    intro acc
    have hrest : ∀ x ∈ rest, isResultMsg x = false :=
      fun x hx => h x (List.mem_cons_of_mem _ hx)
    have hm : isResultMsg m = false := h m (List.mem_cons_self _ _)
    rw [List.foldl_cons, ih hrest, assistantConcat]
    cases m with
    | assistant content =>
      cases content with
      | none => simp [stepMsg, msgText]
      | some blocks => simp [stepMsg, msgText, String.append_assoc]
    | result subtype res => simp [isResultMsg] at hm
    | system => simp [stepMsg, msgText]

lemma runTail_complete (inp : GenInput) (acc : String)
    (h : consumeStream inp.abortedFrom 0 "" inp.msgs = Except.ok acc)
    (he : inp.streamErr = none) :
    runTail inp = ([BusEvent.complete (parseModifyResponse inp.extract acc)],
      Except.ok (parseModifyResponse inp.extract acc)) := by
  unfold runTail
  rw [h, he]

lemma runTail_streamErr (inp : GenInput) (acc e : String)
    (h : consumeStream inp.abortedFrom 0 "" inp.msgs = Except.ok acc)
    (he : inp.streamErr = some e) :
    runTail inp = ([BusEvent.error e], Except.error e) := by
  unfold runTail
  rw [h, he]

lemma runTail_consumeErr (inp : GenInput) (e : String)
    (h : consumeStream inp.abortedFrom 0 "" inp.msgs = Except.error e) :
    runTail inp = ([BusEvent.error e], Except.error e) := by
  unfold runTail
  rw [h]

lemma runTail_shape (inp : GenInput) :
    (∃ acc, runTail inp =
      ([BusEvent.complete (parseModifyResponse inp.extract acc)],
        Except.ok (parseModifyResponse inp.extract acc))) ∨
    (∃ e, runTail inp = ([BusEvent.error e], Except.error e)) := by
  unfold runTail
  cases h : consumeStream inp.abortedFrom 0 "" inp.msgs with
  | error e => exact Or.inr ⟨e, rfl⟩
  | ok acc =>
    cases he : inp.streamErr with
    | none => exact Or.inl ⟨acc, rfl⟩
    | some e => exact Or.inr ⟨e, rfl⟩

lemma completeCount_preEvents (inp : GenInput) :
    completeCount (preEvents inp) = 0 := by
  simp [preEvents, completeCount, List.countP_cons, isCompleteEvent]

lemma errorCount_preEvents (inp : GenInput) :
    errorCount (preEvents inp) = 0 := by
  simp [preEvents, errorCount, List.countP_cons, isErrorEvent]

lemma filter_isTerminal_preEvents (inp : GenInput) :
    (preEvents inp).filter (fun e => isTerminal e) = [] := by
  simp [preEvents, List.filter, isTerminal]

lemma filter_isProgress_preEvents (inp : GenInput) :
    (preEvents inp).filter (fun e => isProgressEvent e) = preEvents inp := by
  simp [preEvents, List.filter, isProgressEvent]

lemma parseModifyResponse_all_update
    (extract : String → Option BacklogPlanResult) (response : String) :
    ((parseModifyResponse extract response).changes.all
      (fun ch => ch.type == "update")) = true ∧
    (parseModifyResponse extract response).dependencyUpdates = [] := by
  unfold parseModifyResponse
  cases extract response with
  | none => exact ⟨rfl, rfl⟩
  | some parsed =>
    refine ⟨?_, rfl⟩
    simp only [List.all_eq_true]
    intro ch hch
    exact (List.mem_filter.mp hch).2

lemma createGenerateHandler_accepted (inp : GenInput) (req : GenerateRequest)
    (st : ScopeState) (c : Nat)
    (hp : req.projectPath ≠ "") (hq : req.prompt ≠ "")
    (hidle : st.isRunning = false) :
    createGenerateHandler inp req st c =
      { resp := HttpResponse.okSuccess
        stateAfterAdmission :=
          setRunningState (setRunningState st true none) true (some (some c))
        launched := true
        bgEvents := (generateBacklogModify inp
            (setRunningState (setRunningState st true none) true (some (some c)))).events ++
          catchEvents (generateBacklogModify inp
            (setRunningState (setRunningState st true none) true (some (some c)))).outcome
        finalState := setRunningState (generateBacklogModify inp
            (setRunningState (setRunningState st true none) true (some (some c)))).state
          false (some none) } := by
  unfold createGenerateHandler
  rw [if_neg hp, if_neg hq]
  simp [getBacklogModifyStatus, hidle]

end Automaker

namespace Automaker

/-! ### Claim theorems -/

/-- Claim C1 (single-flight admission): for a well-formed request, when a
generation job is already running the generate handler responds with the
already-running rejection, launches no background task, emits nothing on
the bus and leaves the state untouched; when no job is running it
accepts, launches the background task, and the running flag is true at
the moment the response is sent. -/
theorem single_flight_admission (inp : GenInput) (req : GenerateRequest)
    (st : ScopeState) (c : Nat)
    (hp : req.projectPath ≠ "") (hq : req.prompt ≠ "") :
    (st.isRunning = true →
      (createGenerateHandler inp req st c).resp
          = HttpResponse.okFailure "Backlog modify generation is already running" ∧
      (createGenerateHandler inp req st c).launched = false ∧
      (createGenerateHandler inp req st c).bgEvents = [] ∧
      (createGenerateHandler inp req st c).stateAfterAdmission = st ∧
      (createGenerateHandler inp req st c).finalState = st) ∧
    (st.isRunning = false →
      (createGenerateHandler inp req st c).resp = HttpResponse.okSuccess ∧
      (createGenerateHandler inp req st c).launched = true ∧
      (createGenerateHandler inp req st c).stateAfterAdmission.isRunning = true) := by
  constructor
  · intro h
    unfold createGenerateHandler
    rw [if_neg hp, if_neg hq]
    simp [getBacklogModifyStatus, h]
  · intro h
    rw [createGenerateHandler_accepted inp req st c hp hq h]
    exact ⟨rfl, rfl, rfl⟩

/-- Witness for C1 at concrete states: a running scope rejects without
launching; an idle scope accepts and is running on return. -/
theorem single_flight_admission_witness :
    (createGenerateHandler wInp wReq ⟨true, none⟩ 5).launched = false ∧
    (createGenerateHandler wInp wReq ⟨false, none⟩ 5).resp = HttpResponse.okSuccess ∧
    (createGenerateHandler wInp wReq ⟨false, none⟩ 5).stateAfterAdmission.isRunning = true :=
  ⟨((single_flight_admission wInp wReq ⟨true, none⟩ 5 (by decide) (by decide)).1 rfl).2.1,
   ((single_flight_admission wInp wReq ⟨false, none⟩ 5 (by decide) (by decide)).2 rfl).1,
   ((single_flight_admission wInp wReq ⟨false, none⟩ 5 (by decide) (by decide)).2 rfl).2.2⟩

/-- Counterexample to claim C2 as stated: an accepted start whose
provider stream throws produces TWO terminal `backlog_modify_error`
events (one from the catch inside `generateBacklogModify`, which then
rethrows, and one from the `.catch` attached in the generate handler),
not exactly one. -/
theorem terminal_event_duplication_counterexample :
    (createGenerateHandler errInp wReq ⟨false, none⟩ 0).resp = HttpResponse.okSuccess ∧
    (createGenerateHandler errInp wReq ⟨false, none⟩ 0).bgEvents.countP
      (fun e => isTerminal e) = 2 ∧
    errorCount (createGenerateHandler errInp wReq ⟨false, none⟩ 0).bgEvents = 2 := by
  decide

/-- Claim C2 as amended: for every accepted start, a background run
that resolves (normal completion, parse failure included) emits exactly
one `backlog_modify_complete` and no error event, while a background
run that rejects (provider error or abort) emits no complete event and
exactly two `backlog_modify_error` events; in every case at least one
terminal event is emitted. The run's outcome is the resolution of the
background task launched with the admitted state. -/
theorem terminal_event_multiplicity (inp : GenInput) (req : GenerateRequest)
    (st : ScopeState) (c : Nat)
    (hp : req.projectPath ≠ "") (hq : req.prompt ≠ "")
    (hidle : st.isRunning = false) :
    (∀ r, (generateBacklogModify inp
        (createGenerateHandler inp req st c).stateAfterAdmission).outcome = Except.ok r →
      completeCount (createGenerateHandler inp req st c).bgEvents = 1 ∧
      errorCount (createGenerateHandler inp req st c).bgEvents = 0) ∧
    (∀ e, (generateBacklogModify inp
        (createGenerateHandler inp req st c).stateAfterAdmission).outcome = Except.error e →
      completeCount (createGenerateHandler inp req st c).bgEvents = 0 ∧
      errorCount (createGenerateHandler inp req st c).bgEvents = 2) ∧
    ((completeCount (createGenerateHandler inp req st c).bgEvents = 1 ∧
      errorCount (createGenerateHandler inp req st c).bgEvents = 0) ∨
     (completeCount (createGenerateHandler inp req st c).bgEvents = 0 ∧
      errorCount (createGenerateHandler inp req st c).bgEvents = 2)) := by
  rw [createGenerateHandler_accepted inp req st c hp hq hidle]
  rcases runTail_shape inp with ⟨acc, hr⟩ | ⟨e0, he⟩
  · have hcounts :
        completeCount ((preEvents inp ++ (runTail inp).1) ++ catchEvents (runTail inp).2) = 1 ∧
        errorCount ((preEvents inp ++ (runTail inp).1) ++ catchEvents (runTail inp).2) = 0 := by
      rw [hr]
      show completeCount (preEvents inp ++ [BusEvent.complete (parseModifyResponse inp.extract acc)]) = 1 ∧
        errorCount (preEvents inp ++ [BusEvent.complete (parseModifyResponse inp.extract acc)]) = 0
      constructor
      · rw [completeCount, List.countP_append]
        have h0 := completeCount_preEvents inp
        rw [completeCount] at h0
        rw [h0]
        rfl
      · rw [errorCount, List.countP_append]
        have h0 := errorCount_preEvents inp
        rw [errorCount] at h0
        rw [h0]
        rfl
    refine ⟨fun r _ => hcounts, fun e h => ?_, Or.inl hcounts⟩
    have hcontra : (runTail inp).2 = Except.error e := h
    rw [hr] at hcontra
    simp at hcontra
  · have hcounts :
        completeCount ((preEvents inp ++ (runTail inp).1) ++ catchEvents (runTail inp).2) = 0 ∧
        errorCount ((preEvents inp ++ (runTail inp).1) ++ catchEvents (runTail inp).2) = 2 := by
      rw [he]
      show completeCount ((preEvents inp ++ [BusEvent.error e0]) ++ [BusEvent.error e0]) = 0 ∧
        errorCount ((preEvents inp ++ [BusEvent.error e0]) ++ [BusEvent.error e0]) = 2
      constructor
      · rw [completeCount, List.countP_append, List.countP_append]
        have h0 := completeCount_preEvents inp
        rw [completeCount] at h0
        rw [h0]
        rfl
      · rw [errorCount, List.countP_append, List.countP_append]
        have h0 := errorCount_preEvents inp
        rw [errorCount] at h0
        rw [h0]
        rfl
    refine ⟨fun r h => ?_, fun e _ => hcounts, Or.inr hcounts⟩
    have hcontra : (runTail inp).2 = Except.ok r := h
    rw [he] at hcontra
    simp at hcontra

/-- Witness for the amended C2: a concrete resolving run emits exactly
one complete event and no error event, and a concrete rejecting run
(provider stream throws) emits no complete event and exactly two error
events. -/
theorem terminal_event_multiplicity_witness :
    (completeCount (createGenerateHandler wInp wReq ⟨false, none⟩ 0).bgEvents = 1 ∧
     errorCount (createGenerateHandler wInp wReq ⟨false, none⟩ 0).bgEvents = 0) ∧
    (completeCount (createGenerateHandler errInp wReq ⟨false, none⟩ 0).bgEvents = 0 ∧
     errorCount (createGenerateHandler errInp wReq ⟨false, none⟩ 0).bgEvents = 2) :=
  ⟨(terminal_event_multiplicity wInp wReq ⟨false, none⟩ 0 (by decide) (by decide) rfl).1
      degenerateResult rfl,
   (terminal_event_multiplicity errInp wReq ⟨false, none⟩ 0 (by decide) (by decide) rfl).2.1
      "boom" rfl⟩

/-- Counterexample to claim C3 as stated: on an accepted run whose
provider yields one assistant message with text `a`, the text is
accumulated (the consumed stream yields `a`), but the bus carries no
progress event with content `a` at all — the only events are the two
fixed pre-generation progress notices and the completion event. -/
theorem no_progress_republication_counterexample :
    consumeStream none 0 "" oneMsgInp.msgs = Except.ok "a" ∧
    (createGenerateHandler oneMsgInp wReq ⟨false, none⟩ 0).bgEvents =
      [BusEvent.progress "Loaded 0 features (backlog/in_progress) from 0 total",
       BusEvent.progress "Generating modifications with AI...",
       BusEvent.complete degenerateResult] ∧
    (createGenerateHandler oneMsgInp wReq ⟨false, none⟩ 0).bgEvents.filter
      (fun e => e == BusEvent.progress "a") = [] :=
  ⟨rfl, rfl, by decide⟩

/-- Claim C3 as amended: while a job is running, every assistant text
block is appended to the accumulated buffer in provider order (for a
stream without terminal result messages the buffer equals the
concatenation of the assistant texts), but no per-message progress
event is published: the only progress events of a run are the two fixed
pre-generation notices. -/
theorem accumulation_without_progress_events (inp : GenInput) (st : ScopeState)
    (hnores : ∀ m ∈ inp.msgs, isResultMsg m = false)
    (hnoabort : inp.abortedFrom = none) :
    consumeStream inp.abortedFrom 0 "" inp.msgs =
      Except.ok (assistantConcat inp.msgs) ∧
    (generateBacklogModify inp st).events.filter (fun e => isProgressEvent e) =
      preEvents inp ∧
    (preEvents inp).length = 2 := by
  refine ⟨?_, ?_, rfl⟩
  · rw [hnoabort, consumeStream_none_eq_foldl,
      foldl_stepMsg_no_result inp.msgs hnores ""]
    simp
  · show (preEvents inp ++ (runTail inp).1).filter (fun e => isProgressEvent e)
      = preEvents inp
    rw [List.filter_append, filter_isProgress_preEvents]
    rcases runTail_shape inp with ⟨acc, hr⟩ | ⟨e, he⟩
    · rw [hr]; simp [isProgressEvent]
    · rw [he]; simp [isProgressEvent]

/-- Witness for the amended C3 at a concrete one-message run. -/
theorem accumulation_without_progress_events_witness :
    consumeStream oneMsgInp.abortedFrom 0 "" oneMsgInp.msgs =
      Except.ok (assistantConcat oneMsgInp.msgs) ∧
    (generateBacklogModify oneMsgInp ⟨true, some 1⟩).events.filter
      (fun e => isProgressEvent e) = preEvents oneMsgInp ∧
    (preEvents oneMsgInp).length = 2 :=
  accumulation_without_progress_events oneMsgInp ⟨true, some 1⟩ (by decide) rfl

/-- Claim C4 (result-preference rule): when the stream ends with a
terminal `result` message of subtype `success` carrying a non-empty
result string `r`, the final response text is `r` exactly when `r` is
strictly longer than the text `acc` accumulated so far, and is the
accumulated text otherwise (the iff is stated for `r` different from
`acc`; when they are equal both descriptions coincide). -/
theorem result_preference_rule (msgs : List ProviderMessage) (acc r : String)
    (hacc : consumeStream none 0 "" msgs = Except.ok acc)
    (hr : r ≠ "") (hne : r ≠ acc) :
    consumeStream none 0 "" (msgs ++ [ProviderMessage.result "success" (some r)]) =
      Except.ok (if r.length > acc.length then r else acc) ∧
    ((consumeStream none 0 "" (msgs ++ [ProviderMessage.result "success" (some r)]) =
      Except.ok r) ↔ r.length > acc.length) := by
  have hfold : msgs.foldl stepMsg "" = acc := by
    have h := consumeStream_none_eq_foldl msgs 0 ""
    rw [hacc] at h
    exact (Except.ok.inj h.symm)
  have hmain : consumeStream none 0 ""
      (msgs ++ [ProviderMessage.result "success" (some r)]) =
      Except.ok (if r.length > acc.length then r else acc) := by
    rw [consumeStream_none_eq_foldl, List.foldl_append, hfold]
    simp [stepMsg, hr]
  refine ⟨hmain, ?_⟩
  rw [hmain]
  constructor
  · intro h
    by_cases hc : r.length > acc.length
    · exact hc
    · rw [if_neg hc] at h
      exact absurd (Except.ok.inj h).symm hne
  · intro hc
    rw [if_pos hc]

/-- Witness for C4: accumulated `ab` with terminal result `abcdef`
yields `abcdef`; accumulated `abcdef` with terminal result `ab` keeps
`abcdef`. -/
theorem result_preference_rule_witness :
    consumeStream none 0 ""
      ([ProviderMessage.assistant (some [ContentBlock.text "ab"])] ++
        [ProviderMessage.result "success" (some "abcdef")]) = Except.ok "abcdef" ∧
    consumeStream none 0 ""
      ([ProviderMessage.assistant (some [ContentBlock.text "abcdef"])] ++
        [ProviderMessage.result "success" (some "ab")]) = Except.ok "abcdef" := by
  constructor
  · have h := (result_preference_rule
      [ProviderMessage.assistant (some [ContentBlock.text "ab"])] "ab" "abcdef"
      rfl (by decide) (by decide)).1
    rw [h]
    rfl
  · have h := (result_preference_rule
      [ProviderMessage.assistant (some [ContentBlock.text "abcdef"])] "abcdef" "ab"
      rfl (by decide) (by decide)).1
    rw [h]
    rfl

/-- Claim C5 (parse-failure tolerance): when the stream ends normally
and the extractor cannot parse the accumulated text, the orchestrator
produces the degenerate artifact and still publishes exactly a
`backlog_modify_complete` event carrying it — never a
`backlog_modify_error`. -/
theorem parse_failure_tolerance (inp : GenInput) (st : ScopeState) (acc : String)
    (hconsume : consumeStream inp.abortedFrom 0 "" inp.msgs = Except.ok acc)
    (herr : inp.streamErr = none)
    (hparse : inp.extract acc = none) :
    parseModifyResponse inp.extract acc = degenerateResult ∧
    (generateBacklogModify inp st).events.filter (fun e => isTerminal e) =
      [BusEvent.complete degenerateResult] ∧
    errorCount (generateBacklogModify inp st).events = 0 := by
  have hp : parseModifyResponse inp.extract acc = degenerateResult := by
    unfold parseModifyResponse
    rw [hparse]
  have ht := runTail_complete inp acc hconsume herr
  rw [hp] at ht
  refine ⟨hp, ?_, ?_⟩
  · show (preEvents inp ++ (runTail inp).1).filter (fun e => isTerminal e) = _
    rw [List.filter_append, filter_isTerminal_preEvents, ht]
    rfl
  · show errorCount (preEvents inp ++ (runTail inp).1) = 0
    rw [errorCount, List.countP_append, ht]
    have h0 := errorCount_preEvents inp
    rw [errorCount] at h0
    rw [h0]
    rfl

/-- Witness for C5 at the empty response text (provider delivers no
messages, so the accumulated text is the empty string, which the
witness extractor fails to parse). -/
theorem parse_failure_tolerance_witness :
    parseModifyResponse wInp.extract "" = degenerateResult ∧
    (generateBacklogModify wInp ⟨true, some 0⟩).events.filter
      (fun e => isTerminal e) = [BusEvent.complete degenerateResult] ∧
    errorCount (generateBacklogModify wInp ⟨true, some 0⟩).events = 0 :=
  parse_failure_tolerance wInp ⟨true, some 0⟩ "" rfl rfl rfl

/-- Claim C6 (stop idempotence): with no stored controller, stop is a
no-op success that emits nothing and changes nothing; with a stored
controller, stop signals exactly that controller, clears the flag and
the controller, emits nothing, and the immediately following stop is
the no-op success. -/
theorem stop_idempotence (st : ScopeState) :
    (st.currentAbortController = none →
      createStopHandler st =
        { respSuccess := true
          message := "No generation running"
          state := st
          signaled := none
          events := [] }) ∧
    (∀ c, st.currentAbortController = some c →
      (createStopHandler st).respSuccess = true ∧
      (createStopHandler st).message = "Generation stopped" ∧
      (createStopHandler st).signaled = some c ∧
      (createStopHandler st).events = [] ∧
      (createStopHandler st).state =
        { isRunning := false, currentAbortController := none } ∧
      createStopHandler ((createStopHandler st).state) =
        { respSuccess := true
          message := "No generation running"
          state := (createStopHandler st).state
          signaled := none
          events := [] }) := by
  constructor
  · intro h
    simp [createStopHandler, getAbortController, h]
  · intro c h
    simp [createStopHandler, getAbortController, h, setRunningState]

/-- Witness for C6 at concrete states: stop on an idle scope succeeds;
stop on a scope with controller 7 signals it, and stopping again
signals nothing. -/
theorem stop_idempotence_witness :
    (createStopHandler ⟨false, none⟩).respSuccess = true ∧
    (createStopHandler ⟨true, some 7⟩).signaled = some 7 ∧
    (createStopHandler ((createStopHandler ⟨true, some 7⟩).state)).signaled = none := by
  refine ⟨?_, ?_, ?_⟩
  · rw [(stop_idempotence ⟨false, none⟩).1 rfl]
  · exact ((stop_idempotence ⟨true, some 7⟩).2 7 rfl).2.2.1
  · rw [((stop_idempotence ⟨true, some 7⟩).2 7 rfl).2.2.2.2.2]

/-- Claim C7 (guaranteed state cleanup): every `generateBacklogModify`
run — normal completion, stream error, abort, parse failure — leaves
the scope state with `isRunning = false` and no stored controller
(the `finally` step), and every launched background task of the
generate handler ends in that same cleared state. -/
theorem guaranteed_state_cleanup (inp : GenInput) (req : GenerateRequest)
    (st st2 : ScopeState) (c : Nat) :
    (generateBacklogModify inp st2).state =
      { isRunning := false, currentAbortController := none } ∧
    ((createGenerateHandler inp req st c).launched = true →
      (createGenerateHandler inp req st c).finalState =
        { isRunning := false, currentAbortController := none }) := by
  constructor
  · rfl
  · unfold createGenerateHandler
    split
    · intro h; simp at h
    · split
      · intro h; simp at h
      · split
        · intro h; simp at h
        · intro _; rfl

/-- Witness for C7 at a concrete accepted run. -/
theorem guaranteed_state_cleanup_witness :
    (generateBacklogModify wInp ⟨true, some 3⟩).state =
      { isRunning := false, currentAbortController := none } ∧
    (createGenerateHandler wInp wReq ⟨false, none⟩ 3).finalState =
      { isRunning := false, currentAbortController := none } :=
  ⟨(guaranteed_state_cleanup wInp wReq ⟨false, none⟩ ⟨true, some 3⟩ 3).1,
   (guaranteed_state_cleanup wInp wReq ⟨false, none⟩ ⟨true, some 3⟩ 3).2 (by decide)⟩

/-- Counterexample to claim C8 as stated: an aborted run is surfaced
through the very same `backlog_modify_error` event kind as a run whose
provider throws an execution error — there is no distinct cooperative
abort classification in the published events; only the message string
`Generation aborted` differs. -/
theorem abort_error_event_counterexample :
    (generateBacklogModify abortInp ⟨true, some 0⟩).events.filter
      (fun e => isTerminal e) = [BusEvent.error "Generation aborted"] ∧
    ((generateBacklogModify abortInp ⟨true, some 0⟩).events.filter
      (fun e => isTerminal e)).map eventKind = ["backlog_modify_error"] ∧
    ((generateBacklogModify errInp ⟨true, some 0⟩).events.filter
      (fun e => isTerminal e)).map eventKind = ["backlog_modify_error"] := by
  decide

/-- Claim C8 as amended: when the cancellation signal is observed
during stream consumption, the orchestrator throws
`Error('Generation aborted')`, and the outcome is surfaced to
observers via the same `backlog_modify_error` event kind as execution
errors, distinguished only by the fixed message string. -/
theorem abort_surfaced_as_error_event (inp : GenInput) (st : ScopeState)
    (habort : inp.abortedFrom = some 0) (hne : inp.msgs ≠ []) :
    (generateBacklogModify inp st).events.filter (fun e => isTerminal e) =
      [BusEvent.error "Generation aborted"] ∧
    (generateBacklogModify inp st).outcome = Except.error "Generation aborted" ∧
    ((generateBacklogModify inp st).events.filter (fun e => isTerminal e)).map
      eventKind = ["backlog_modify_error"] := by
  have hc : consumeStream inp.abortedFrom 0 "" inp.msgs =
      Except.error "Generation aborted" := by
    rw [habort]
    cases hm : inp.msgs with
    | nil => exact absurd hm hne
    | cons m rest => rfl
  have ht := runTail_consumeErr inp "Generation aborted" hc
  refine ⟨?_, ?_, ?_⟩
  · show (preEvents inp ++ (runTail inp).1).filter (fun e => isTerminal e) = _
    rw [List.filter_append, filter_isTerminal_preEvents, ht]
    rfl
  · show (runTail inp).2 = _
    rw [ht]
  · show ((preEvents inp ++ (runTail inp).1).filter (fun e => isTerminal e)).map
      eventKind = _
    rw [List.filter_append, filter_isTerminal_preEvents, ht]
    rfl

/-- Witness for the amended C8 at a concrete aborted run. -/
theorem abort_surfaced_as_error_event_witness :
    (generateBacklogModify abortInp ⟨false, none⟩).outcome =
      Except.error "Generation aborted" ∧
    (generateBacklogModify abortInp ⟨false, none⟩).events.filter
      (fun e => isTerminal e) = [BusEvent.error "Generation aborted"] :=
  ⟨(abort_surfaced_as_error_event abortInp ⟨false, none⟩ rfl (by decide)).2.1,
   (abort_surfaced_as_error_event abortInp ⟨false, none⟩ rfl (by decide)).1⟩

/-- Claim C9 (read-only text-only enforcement): for every model (Cursor
or not), prompts and project path, the options handed to
`provider.executeQuery` have `readOnly = true` and an empty
`allowedTools` list, and so does the query issued by every
`generateBacklogModify` run. -/
theorem read_only_text_only_enforcement (inp : GenInput) (st : ScopeState)
    (isCursor : Bool) (effectiveModel systemPrompt userPrompt projectPath : String) :
    (buildExecuteOptions isCursor effectiveModel systemPrompt userPrompt projectPath).readOnly = true ∧
    (buildExecuteOptions isCursor effectiveModel systemPrompt userPrompt projectPath).allowedTools = [] ∧
    (generateBacklogModify inp st).queryOptions.readOnly = true ∧
    (generateBacklogModify inp st).queryOptions.allowedTools = [] := by
  have hb : ∀ (b : Bool) (m s u p : String),
      (buildExecuteOptions b m s u p).readOnly = true ∧
      (buildExecuteOptions b m s u p).allowedTools = [] := by
    intro b m s u p
    cases b <;> simp [buildExecuteOptions]
  exact ⟨(hb _ _ _ _ _).1, (hb _ _ _ _ _).2,
    (hb inp.isCursor inp.effectiveModel inp.systemPrompt inp.userPrompt inp.projectPath).1,
    (hb inp.isCursor inp.effectiveModel inp.systemPrompt inp.userPrompt inp.projectPath).2⟩

/-- Claim C10 (artifact invariant): for every extractor and every input
string, the artifact returned by `parseModifyResponse` contains only
changes of type `update` and an empty `dependencyUpdates` list, in both
the parsed and the parse-failure branch; consequently the payload of
every `backlog_modify_complete` event of every run satisfies the same
invariant. -/
theorem artifact_update_only_invariant
    (extract : String → Option BacklogPlanResult) (response : String)
    (inp : GenInput) (st : ScopeState) :
    ((parseModifyResponse extract response).changes.all
      (fun ch => ch.type == "update")) = true ∧
    (parseModifyResponse extract response).dependencyUpdates = [] ∧
    ((generateBacklogModify inp st).events.all
      (fun e => completePayloadOk e)) = true := by
  refine ⟨(parseModifyResponse_all_update extract response).1,
    (parseModifyResponse_all_update extract response).2, ?_⟩
  show ((preEvents inp ++ (runTail inp).1).all (fun e => completePayloadOk e)) = true
  rw [List.all_append]
  have hpre : ((preEvents inp).all (fun e => completePayloadOk e)) = true := by
    simp [preEvents, completePayloadOk]
  rcases runTail_shape inp with ⟨acc, hr⟩ | ⟨e, he⟩
  · rw [hpre, hr]
    have h1 := (parseModifyResponse_all_update inp.extract acc).1
    have h2 := (parseModifyResponse_all_update inp.extract acc).2
    simp [completePayloadOk, h1, h2]
  · rw [hpre, he]
    simp [completePayloadOk]

end Automaker
